import Mathlib

/-!
Verification of the contagion simulation engine (`model.py`).

The simulation state and dynamics are embedded from `model.py`:
`Point`, `Cell` (a particle with location, direction and an integer
sickness level) and `Model` (the population plus a tick counter).
Coordinates are modelled as rationals; the float `sqrt` comparison of
`Point.distance` against the contact radius is modelled by the
equivalent squared comparison (`Point.distance_lt`), with a bridging
lemma to `Real.sqrt` proved below.

The module `constants.py` that `model.py` imports is not part of the
sources; its values are modelled from the spec as an abstract
`Constants` record together with the well-formedness facts the spec
states about them (`Constants.WF`).
-/

/-- Modelled from the spec: the configuration module `constants.py`
(absent from the sources) — spatial bounds, the bounds width used by
`random_location`, the contact radius, the three sickness sentinels and
the recovery period. -/
structure Constants where
  BOUNDS_WIDTH : ℚ
  MIN_X : ℚ
  MAX_X : ℚ
  MIN_Y : ℚ
  MAX_Y : ℚ
  CELL_RADIUS : ℚ
  VULNERABLE : ℤ
  INFECTED : ℤ
  IMMUNE : ℤ
  RECOVERY_PERIOD : ℤ

/-- Modelled from the spec: well-formedness of the configuration.  The
sentinels `VULNERABLE` and `IMMUNE` are reserved values distinct from
each other and below the infected threshold; the recovery threshold is
at or above the infected threshold; the bounds are symmetric around the
origin and `BOUNDS_WIDTH` fits inside them (so randomized locations are
within bounds, as the spec requires). -/
def Constants.WF (C : Constants) : Prop :=
  C.VULNERABLE < C.INFECTED ∧
  C.IMMUNE < C.INFECTED ∧
  C.VULNERABLE ≠ C.IMMUNE ∧
  C.INFECTED ≤ C.RECOVERY_PERIOD ∧
  C.MIN_X = -C.MAX_X ∧
  C.MIN_Y = -C.MAX_Y ∧
  0 ≤ C.BOUNDS_WIDTH ∧
  C.BOUNDS_WIDTH ≤ 2 * C.MAX_X ∧
  C.BOUNDS_WIDTH ≤ 2 * C.MAX_Y

instance (C : Constants) : Decidable C.WF := by
  unfold Constants.WF; infer_instance

/-- `Point` from `model.py`: a 2-d cartesian coordinate. -/
structure Point where
  x : ℚ
  y : ℚ
deriving DecidableEq, Repr

/-- `Point.add` from `model.py`: component-wise sum. -/
def Point.add (p other : Point) : Point :=
  Point.mk (p.x + other.x) (p.y + other.y)

/-- Squared Euclidean distance between two points (the source's
`(dx) ** 2 + (dy) ** 2`). -/
def Point.dist_sq (p point2 : Point) : ℚ :=
  (p.x - point2.x) * (p.x - point2.x) + (p.y - point2.y) * (p.y - point2.y)

/-- The comparison `p.distance(q) < r` from `model.py`
(`sqrt ((px-qx)^2+(py-qy)^2) < r`), expressed without the square root:
for a nonnegative radicand, `sqrt d < r ↔ 0 < r ∧ d < r^2`
(`distance_lt_iff_sqrt` below). -/
def Point.distance_lt (p point2 : Point) (r : ℚ) : Bool :=
  decide (0 < r ∧ Point.dist_sq p point2 < r * r)

/-- `Cell` from `model.py`: location, direction and the integer
sickness level (class default `constants.VULNERABLE`). -/
structure Cell where
  location : Point
  direction : Point
  sickness : ℤ
deriving DecidableEq, Repr

instance : Inhabited Cell := ⟨⟨⟨0, 0⟩, ⟨0, 0⟩, 0⟩⟩

/-- `Cell.__init__` from `model.py`: a fresh cell keeps the class
default sickness `constants.VULNERABLE`. -/
def Cell.init (C : Constants) (location direction : Point) : Cell :=
  Cell.mk location direction C.VULNERABLE

/-- `Cell.is_vulnerable` from `model.py`. -/
def Cell.is_vulnerable (C : Constants) (c : Cell) : Bool :=
  decide (c.sickness = C.VULNERABLE)

/-- `Cell.is_infected` from `model.py`. -/
def Cell.is_infected (C : Constants) (c : Cell) : Bool :=
  decide (C.INFECTED ≤ c.sickness)

/-- `Cell.is_immune` from `model.py`. -/
def Cell.is_immune (C : Constants) (c : Cell) : Bool :=
  decide (c.sickness = C.IMMUNE)

/-- `Cell.contract_disease` from `model.py`. -/
def Cell.contract_disease (C : Constants) (c : Cell) : Cell :=
  { c with sickness := C.INFECTED }

/-- `Cell.immunize` from `model.py`. -/
def Cell.immunize (C : Constants) (c : Cell) : Cell :=
  { c with sickness := C.IMMUNE }

/-- `Cell.tick` from `model.py`: move by `direction`; if infected,
increment the sickness counter; then (unconditionally on status) if the
counter exceeds `RECOVERY_PERIOD`, immunize. -/
def Cell.tick (C : Constants) (c : Cell) : Cell :=
  let c1 : Cell := { c with location := c.location.add c.direction }
  let c2 : Cell :=
    if c1.is_infected C then { c1 with sickness := c1.sickness + 1 } else c1
  if C.RECOVERY_PERIOD < c2.sickness then c2.immunize C else c2

/-- `Cell.contact_with` from `model.py`, as a function on the pair
(self, cell2): if `cell2` is infected and `self` vulnerable, `self`
contracts the disease; elif `self` is infected and `cell2` vulnerable,
`cell2` contracts the disease. -/
def Cell.contact_with (C : Constants) (c cell2 : Cell) : Cell × Cell :=
  if cell2.is_infected C && c.is_vulnerable C then
    (c.contract_disease C, cell2)
  else if c.is_infected C && cell2.is_vulnerable C then
    (c, cell2.contract_disease C)
  else
    (c, cell2)

/-- `Cell.color` from `model.py`. -/
def Cell.color (C : Constants) (c : Cell) : String :=
  if c.is_vulnerable C then "gray"
  else if c.is_infected C then "red"
  else if c.is_immune C then "yellow"
  else ""

/-- `Model` from `model.py`: the population and the time counter. -/
structure Model where
  population : List Cell
  time : ℤ
deriving DecidableEq, Repr

/-- `Model.random_location` from `model.py`, applied to two draws
`r1, r2` of the process-wide `random()` (each in `[0,1)`):
`(r1 * BOUNDS_WIDTH - MAX_X, r2 * BOUNDS_WIDTH - MAX_Y)`. -/
def Model.random_location (C : Constants) (r1 r2 : ℚ) : Point :=
  Point.mk (r1 * C.BOUNDS_WIDTH - C.MAX_X) (r2 * C.BOUNDS_WIDTH - C.MAX_Y)

/-- `Model.random_direction` from `model.py`, applied to one draw `r`
of `random()`: angle `2π·r`, components `cos(angle)·speed`,
`sin(angle)·speed`.  Stated over ℝ because of the transcendentals. -/
noncomputable def Model.random_direction (speed : ℝ) (r : ℝ) : ℝ × ℝ :=
  (Real.cos (2 * Real.pi * r) * speed, Real.sin (2 * Real.pi * r) * speed)

/-- `Model.__init__` from `model.py`.  The process-wide random source is
modelled by the streams `locs` and `dirs` giving the `k`-th constructed
cell its randomized location and direction.  Raises (`Except.error`)
exactly on the source's validation condition; otherwise builds
`num_immune` immunized cells, then `num_infected` infected cells, then
the remainder as default (vulnerable) cells. -/
def Model.init (C : Constants) (cells : ℤ) (num_infected : ℤ)
    (num_immune : ℤ) (locs dirs : ℕ → Point) : Except Unit Model :=
  if cells ≤ num_infected ∨ num_infected ≤ 0 ∨
      cells < num_immune + num_infected ∨ num_immune < 0 ∨
      cells ≤ num_immune then
    Except.error ()
  else
    Except.ok
      { population :=
          (List.range num_immune.toNat).map
            (fun k => Cell.immunize C (Cell.init C (locs k) (dirs k))) ++
          (List.range num_infected.toNat).map
            (fun k => Cell.contract_disease C
              (Cell.init C (locs (num_immune.toNat + k))
                (dirs (num_immune.toNat + k)))) ++
          (List.range (cells - num_infected - num_immune).toNat).map
            (fun k => Cell.init C
              (locs (num_immune.toNat + num_infected.toNat + k))
              (dirs (num_immune.toNat + num_infected.toNat + k)))
        time := 0 }

/-- `Model.enforce_bounds` from `model.py`: the four checks in source
order (max-x, max-y, min-y, min-x), each clamping the coordinate to the
bound and negating the matching direction component. -/
def Model.enforce_bounds (C : Constants) (c0 : Cell) : Cell :=
  let c1 : Cell :=
    if C.MAX_X < c0.location.x then
      { c0 with location := Point.mk C.MAX_X c0.location.y
                direction := Point.mk (-c0.direction.x) c0.direction.y }
    else c0
  let c2 : Cell :=
    if C.MAX_Y < c1.location.y then
      { c1 with location := Point.mk c1.location.x C.MAX_Y
                direction := Point.mk c1.direction.x (-c1.direction.y) }
    else c1
  let c3 : Cell :=
    if c2.location.y < C.MIN_Y then
      { c2 with location := Point.mk c2.location.x C.MIN_Y
                direction := Point.mk c2.direction.x (-c2.direction.y) }
    else c2
  if c3.location.x < C.MIN_X then
    { c3 with location := Point.mk C.MIN_X c3.location.y
              direction := Point.mk (-c3.direction.x) c3.direction.y }
  else c3

/-- One iteration of the inner loop body of `Model.check_contacts`:
fetch `population[i]` and `population[j]`, and when their distance is
below `CELL_RADIUS`, apply `contact_with` and store both (possibly
updated) cells back. -/
def Model.contact_step (C : Constants) (pop : List Cell) (i j : ℕ) :
    List Cell :=
  let c1 : Cell := pop.getD i default
  let c2 : Cell := pop.getD j default
  if Point.distance_lt c1.location c2.location C.CELL_RADIUS then
    let p : Cell × Cell := Cell.contact_with C c1 c2
    (pop.set i p.1).set j p.2
  else pop

/-- `Model.check_contacts` from `model.py`: the two nested while loops,
`i` over `[0, n)` and `j` over `[i+1, n)`, with `n` the population size
read once at entry. -/
def Model.check_contacts (C : Constants) (pop : List Cell) : List Cell :=
  let n : ℕ := pop.length
  (List.range n).foldl
    (fun acc i =>
      (List.range' (i + 1) (n - (i + 1))).foldl
        (fun acc2 j => Model.contact_step C acc2 i j) acc)
    pop

/-- The (i, j) index pairs the contact scan visits, in visit order. -/
def Model.scan_pairs (n : ℕ) : List (ℕ × ℕ) :=
  (List.range n).flatMap
    (fun i => (List.range' (i + 1) (n - (i + 1))).map (fun j => (i, j)))

/-- `Model.tick` from `model.py`: bump the time counter, advance and
reflect every cell, then run the contact scan. -/
def Model.tick (C : Constants) (m : Model) : Model :=
  { population :=
      Model.check_contacts C
        (m.population.map (fun c => Model.enforce_bounds C (Cell.tick C c)))
    time := m.time + 1 }

/-- `Model.is_complete` from `model.py`: no cell is infected. -/
def Model.is_complete (C : Constants) (m : Model) : Bool :=
  m.population.all (fun c => !(c.is_infected C))

/-- The spec's sickness-level invariant for a single level: the
Vulnerable sentinel, the Immune sentinel, or at/above the infected
threshold. -/
def GoodS (C : Constants) (s : ℤ) : Prop :=
  s = C.VULNERABLE ∨ s = C.IMMUNE ∨ C.INFECTED ≤ s

/-- The sickness-level invariant over a whole population. -/
def GoodPop (C : Constants) (pop : List Cell) : Prop :=
  ∀ c ∈ pop, GoodS C c.sickness

instance (C : Constants) (s : ℤ) : Decidable (GoodS C s) := by
  unfold GoodS; infer_instance

instance (C : Constants) (pop : List Cell) : Decidable (GoodPop C pop) := by
  unfold GoodPop; infer_instance

/-- The status classification derived from the sickness level, in the
predicate order of `Cell.color`. -/
inductive Status where
  | vulnerable
  | infected
  | immune
  | unclassified
deriving DecidableEq, Repr

/-- Status of a cell, derived from the predicates of `model.py` in the
order `Cell.color` consults them. -/
def statusOf (C : Constants) (c : Cell) : Status :=
  if c.is_vulnerable C then Status.vulnerable
  else if c.is_infected C then Status.infected
  else if c.is_immune C then Status.immune
  else Status.unclassified

/-- Reference constants satisfying `Constants.WF`, used for concrete
witnesses. -/
def Kd : Constants :=
  Constants.mk 400 (-200) 200 (-200) 200 15 0 1 (-1) 50

/-- Reference constants with the infected threshold at 0, the zero
point of the duration counter the spec's recovery-timing property
assumes. -/
def K0 : Constants :=
  Constants.mk 400 (-200) 200 (-200) 200 15 (-2) 0 (-1) 3

/-- Reference constants with contact radius 10, used by the in-scan
cascade configurations. -/
def K10 : Constants :=
  Constants.mk 400 (-200) 200 (-200) 200 10 0 1 (-1) 50

/-- Three stationary cells, mutually within contact radius 10 of each
other, with exactly the middle one infected. -/
def cascadeRing : Model :=
  Model.mk
    [Cell.mk (Point.mk 0 0) (Point.mk 0 0) 0,
     Cell.mk (Point.mk 5 0) (Point.mk 0 0) 1,
     Cell.mk (Point.mk 9 0) (Point.mk 0 0) 0]
    0

/-- Three stationary cells where the infected cell (index 1) is in
range of cell 0 only, while cell 2 is in range of cell 0 but out of
range of cell 1. -/
def cascadeChain : Model :=
  Model.mk
    [Cell.mk (Point.mk 0 0) (Point.mk 0 0) 0,
     Cell.mk (Point.mk (-5) 0) (Point.mk 0 0) 1,
     Cell.mk (Point.mk 9 0) (Point.mk 0 0) 0]
    0

/-! ### Basic cell-level lemmas -/

lemma sickness_immunize (C : Constants) (c : Cell) :
    (c.immunize C).sickness = C.IMMUNE := rfl

lemma sickness_contract (C : Constants) (c : Cell) :
    (c.contract_disease C).sickness = C.INFECTED := rfl

lemma contract_location (C : Constants) (c : Cell) :
    (c.contract_disease C).location = c.location := rfl

lemma contract_direction (C : Constants) (c : Cell) :
    (c.contract_disease C).direction = c.direction := rfl

lemma tick_sickness (C : Constants) (c : Cell) :
    (Cell.tick C c).sickness =
      if C.INFECTED ≤ c.sickness then
        (if C.RECOVERY_PERIOD < c.sickness + 1 then C.IMMUNE else c.sickness + 1)
      else
        (if C.RECOVERY_PERIOD < c.sickness then C.IMMUNE else c.sickness) := by
  simp only [Cell.tick, Cell.is_infected, Cell.immunize]
  by_cases h : C.INFECTED ≤ c.sickness <;> simp [h] <;> split_ifs <;> rfl

lemma tick_location (C : Constants) (c : Cell) :
    (Cell.tick C c).location = c.location.add c.direction := by
  simp only [Cell.tick, Cell.is_infected, Cell.immunize]
  split_ifs <;> rfl

lemma tick_direction (C : Constants) (c : Cell) :
    (Cell.tick C c).direction = c.direction := by
  simp only [Cell.tick, Cell.is_infected, Cell.immunize]
  split_ifs <;> rfl

lemma enforce_bounds_sickness (C : Constants) (c : Cell) :
    (Model.enforce_bounds C c).sickness = c.sickness := by
  simp only [Model.enforce_bounds]
  split_ifs <;> rfl

lemma contact_with_locdir (C : Constants) (c1 c2 : Cell) :
    (Cell.contact_with C c1 c2).1.location = c1.location ∧
    (Cell.contact_with C c1 c2).1.direction = c1.direction ∧
    (Cell.contact_with C c1 c2).2.location = c2.location ∧
    (Cell.contact_with C c1 c2).2.direction = c2.direction := by
  simp only [Cell.contact_with]
  split_ifs <;> exact ⟨rfl, rfl, rfl, rfl⟩

lemma contact_with_fst_sick (C : Constants) (c1 c2 : Cell) :
    (Cell.contact_with C c1 c2).1.sickness = c1.sickness ∨
      (c1.sickness = C.VULNERABLE ∧
        (Cell.contact_with C c1 c2).1.sickness = C.INFECTED) := by
  simp only [Cell.contact_with]
  split_ifs with h1 h2
  · right
    simp only [Bool.and_eq_true, Cell.is_vulnerable, decide_eq_true_eq] at h1
    exact ⟨h1.2, rfl⟩
  · left; rfl
  · left; rfl

lemma contact_with_snd_sick (C : Constants) (c1 c2 : Cell) :
    (Cell.contact_with C c1 c2).2.sickness = c2.sickness ∨
      (c2.sickness = C.VULNERABLE ∧
        (Cell.contact_with C c1 c2).2.sickness = C.INFECTED) := by
  simp only [Cell.contact_with]
  split_ifs with h1 h2
  · left; rfl
  · right
    simp only [Bool.and_eq_true, Cell.is_vulnerable, decide_eq_true_eq] at h2
    exact ⟨h2.2, rfl⟩
  · left; rfl

/-! ### List index plumbing -/

lemma getD_of_le (pop : List Cell) (k : ℕ) (h : pop.length ≤ k) :
    pop.getD k default = default := by
  simp [List.getD_eq_getElem?_getD, List.getElem?_eq_none h]

lemma getD_set (pop : List Cell) (i k : ℕ) (a : Cell) :
    (pop.set i a).getD k default =
      if i = k ∧ i < pop.length then a else pop.getD k default := by
  by_cases hik : i = k
  · subst hik
    by_cases hi : i < pop.length
    · simp [List.getD_eq_getElem?_getD, List.getElem?_set, hi]
    · rw [List.set_eq_of_length_le (Nat.le_of_not_lt hi)]
      simp [hi]
  · simp [List.getD_eq_getElem?_getD, List.getElem?_set, hik]

lemma getD_map (f : Cell → Cell) (pop : List Cell) (k : ℕ)
    (hk : k < pop.length) :
    (pop.map f).getD k default = f (pop.getD k default) := by
  rw [List.getD_eq_getElem (pop.map f) default (by simpa using hk),
    List.getD_eq_getElem pop default hk, List.getElem_map]

lemma getD_mem (pop : List Cell) (k : ℕ) (hk : k < pop.length) :
    pop.getD k default ∈ pop := by
  rw [List.getD_eq_getElem pop default hk]
  exact List.getElem_mem hk

/-! ### Contact-step and scan lemmas -/

lemma contact_step_length (C : Constants) (pop : List Cell) (i j : ℕ) :
    (Model.contact_step C pop i j).length = pop.length := by
  simp only [Model.contact_step]
  split_ifs <;> simp

lemma contact_step_locdir (C : Constants) (pop : List Cell) (i j k : ℕ) :
    ((Model.contact_step C pop i j).getD k default).location =
      (pop.getD k default).location ∧
    ((Model.contact_step C pop i j).getD k default).direction =
      (pop.getD k default).direction := by
  simp only [Model.contact_step]
  split_ifs with h
  · obtain ⟨e1, e2, e3, e4⟩ :=
      contact_with_locdir C (pop.getD i default) (pop.getD j default)
    rw [getD_set, getD_set]
    simp only [List.length_set]
    split_ifs with hj hi
    · obtain ⟨rfl, hj2⟩ := hj
      rw [e3, e4]; exact ⟨rfl, rfl⟩
    · obtain ⟨rfl, hi2⟩ := hi
      rw [e1, e2]; exact ⟨rfl, rfl⟩
    · exact ⟨rfl, rfl⟩
  · exact ⟨rfl, rfl⟩

lemma contact_step_sick (C : Constants) (pop : List Cell) (i j k : ℕ) :
    ((Model.contact_step C pop i j).getD k default).sickness =
      (pop.getD k default).sickness ∨
    ((pop.getD k default).sickness = C.VULNERABLE ∧
      ((Model.contact_step C pop i j).getD k default).sickness = C.INFECTED) := by
  simp only [Model.contact_step]
  split_ifs with h
  · rw [getD_set, getD_set]
    simp only [List.length_set]
    split_ifs with hj hi
    · rw [← hj.1]
      exact contact_with_snd_sick C (pop.getD i default) (pop.getD j default)
    · rw [← hi.1]
      exact contact_with_fst_sick C (pop.getD i default) (pop.getD j default)
    · left; rfl
  · left; rfl

lemma contact_step_goodPop (C : Constants) (pop : List Cell) (i j : ℕ)
    (hg : GoodPop C pop) : GoodPop C (Model.contact_step C pop i j) := by
  simp only [Model.contact_step]
  split_ifs with h
  · have good1 : GoodPop C
        (pop.set i (Cell.contact_with C (pop.getD i default) (pop.getD j default)).1) := by
      by_cases hi : i < pop.length
      · intro x hx
        rcases List.mem_or_eq_of_mem_set hx with hx1 | rfl
        · exact hg _ hx1
        · rcases contact_with_fst_sick C (pop.getD i default) (pop.getD j default)
            with he | ⟨_, he⟩
          · rw [GoodS, he]
            exact hg _ (getD_mem pop i hi)
          · rw [GoodS, he]; right; right; exact le_refl _
      · rw [List.set_eq_of_length_le (Nat.le_of_not_lt hi)]; exact hg
    by_cases hj : j <
        (pop.set i (Cell.contact_with C (pop.getD i default) (pop.getD j default)).1).length
    · intro x hx
      rcases List.mem_or_eq_of_mem_set hx with hx1 | rfl
      · exact good1 _ hx1
      · rcases contact_with_snd_sick C (pop.getD i default) (pop.getD j default)
          with he | ⟨_, he⟩
        · rw [GoodS, he]
          exact hg _ (getD_mem pop j (by simpa using hj))
        · rw [GoodS, he]; right; right; exact le_refl _
    · rw [List.set_eq_of_length_le (Nat.le_of_not_lt hj)]; exact good1
  · exact hg

/-- Folding the contact step over any list of index pairs. -/
def scan_fold (C : Constants) (prs : List (ℕ × ℕ)) (pop : List Cell) :
    List Cell :=
  prs.foldl (fun acc pr => Model.contact_step C acc pr.1 pr.2) pop

lemma scan_fold_nil (C : Constants) (pop : List Cell) :
    scan_fold C [] pop = pop := rfl

lemma scan_fold_cons (C : Constants) (pr : ℕ × ℕ) (prs : List (ℕ × ℕ))
    (pop : List Cell) :
    scan_fold C (pr :: prs) pop =
      scan_fold C prs (Model.contact_step C pop pr.1 pr.2) := rfl

lemma scan_fold_length (C : Constants) (prs : List (ℕ × ℕ))
    (pop : List Cell) : (scan_fold C prs pop).length = pop.length := by
  induction prs generalizing pop with
  | nil => rfl
  | cons pr prs ih =>
      rw [scan_fold_cons, ih, contact_step_length]

lemma scan_fold_locdir (C : Constants) (prs : List (ℕ × ℕ))
    (pop : List Cell) (k : ℕ) :
    ((scan_fold C prs pop).getD k default).location =
      (pop.getD k default).location ∧
    ((scan_fold C prs pop).getD k default).direction =
      (pop.getD k default).direction := by
  induction prs generalizing pop with
  | nil => exact ⟨rfl, rfl⟩
  | cons pr prs ih =>
      rw [scan_fold_cons]
      obtain ⟨e1, e2⟩ := ih (Model.contact_step C pop pr.1 pr.2)
      obtain ⟨f1, f2⟩ := contact_step_locdir C pop pr.1 pr.2 k
      exact ⟨e1.trans f1, e2.trans f2⟩

lemma scan_fold_sick (C : Constants) (prs : List (ℕ × ℕ))
    (pop : List Cell) (k : ℕ) :
    ((scan_fold C prs pop).getD k default).sickness =
      (pop.getD k default).sickness ∨
    ((pop.getD k default).sickness = C.VULNERABLE ∧
      ((scan_fold C prs pop).getD k default).sickness = C.INFECTED) := by
  induction prs generalizing pop with
  | nil => left; rfl
  | cons pr prs ih =>
      rw [scan_fold_cons]
      rcases ih (Model.contact_step C pop pr.1 pr.2) with h1 | ⟨h1, h1'⟩ <;>
        rcases contact_step_sick C pop pr.1 pr.2 k with h2 | ⟨h2, h2'⟩
      · left; exact h1.trans h2
      · right; exact ⟨h2, h1.trans h2'⟩
      · right; exact ⟨h2.symm.trans h1, h1'⟩
      · right; exact ⟨h2, h1'⟩

lemma scan_fold_goodPop (C : Constants) (prs : List (ℕ × ℕ))
    (pop : List Cell) (hg : GoodPop C pop) :
    GoodPop C (scan_fold C prs pop) := by
  induction prs generalizing pop with
  | nil => exact hg
  | cons pr prs ih =>
      rw [scan_fold_cons]
      exact ih _ (contact_step_goodPop C pop pr.1 pr.2 hg)

lemma foldl_flatMap {α β γ : Type} (l : List α) (g : α → List β)
    (f : γ → β → γ) (init : γ) :
    (l.flatMap g).foldl f init =
      l.foldl (fun acc a => (g a).foldl f acc) init := by
  induction l generalizing init with
  | nil => rfl
  | cons x xs ih => rw [List.flatMap_cons, List.foldl_append, List.foldl_cons, ih]

/-- The nested while loops of `check_contacts` are the fold of the
contact step over the visit-ordered pair list `scan_pairs`. -/
lemma check_contacts_eq_scan_fold (C : Constants) (pop : List Cell) :
    Model.check_contacts C pop =
      scan_fold C (Model.scan_pairs pop.length) pop := by
  rw [Model.check_contacts, Model.scan_pairs, scan_fold, foldl_flatMap]
  congr 1
  funext acc i
  rw [List.foldl_map]

lemma check_contacts_length (C : Constants) (pop : List Cell) :
    (Model.check_contacts C pop).length = pop.length := by
  rw [check_contacts_eq_scan_fold, scan_fold_length]

lemma check_contacts_locdir (C : Constants) (pop : List Cell) (k : ℕ) :
    ((Model.check_contacts C pop).getD k default).location =
      (pop.getD k default).location ∧
    ((Model.check_contacts C pop).getD k default).direction =
      (pop.getD k default).direction := by
  rw [check_contacts_eq_scan_fold]
  exact scan_fold_locdir C _ pop k

lemma check_contacts_sick (C : Constants) (pop : List Cell) (k : ℕ) :
    ((Model.check_contacts C pop).getD k default).sickness =
      (pop.getD k default).sickness ∨
    ((pop.getD k default).sickness = C.VULNERABLE ∧
      ((Model.check_contacts C pop).getD k default).sickness = C.INFECTED) := by
  rw [check_contacts_eq_scan_fold]
  exact scan_fold_sick C _ pop k

lemma check_contacts_goodPop (C : Constants) (pop : List Cell)
    (hg : GoodPop C pop) : GoodPop C (Model.check_contacts C pop) := by
  rw [check_contacts_eq_scan_fold]
  exact scan_fold_goodPop C _ pop hg

/-! ### Model-tick level lemmas -/

lemma tick_population (C : Constants) (m : Model) :
    (Model.tick C m).population =
      Model.check_contacts C
        (m.population.map (fun c => Model.enforce_bounds C (Cell.tick C c))) :=
  rfl

lemma tick_time (C : Constants) (m : Model) :
    (Model.tick C m).time = m.time + 1 := rfl

lemma tick_length (C : Constants) (m : Model) :
    (Model.tick C m).population.length = m.population.length := by
  rw [tick_population, check_contacts_length, List.length_map]

lemma iterate_tick_length (C : Constants) (m : Model) (t : ℕ) :
    ((Model.tick C)^[t] m).population.length = m.population.length := by
  induction t with
  | zero => rfl
  | succ t ih => rw [Function.iterate_succ_apply', tick_length, ih]

lemma goodS_tick (C : Constants) (c : Cell) (h : GoodS C c.sickness) :
    GoodS C (Cell.tick C c).sickness := by
  rw [GoodS, tick_sickness]
  split_ifs with h1 h2 h3
  · right; left; rfl
  · right; right; omega
  · right; left; rfl
  · exact h

lemma goodPop_model_tick (C : Constants) (m : Model)
    (hg : GoodPop C m.population) : GoodPop C (Model.tick C m).population := by
  rw [tick_population]
  apply check_contacts_goodPop
  intro x hx
  rcases List.mem_map.mp hx with ⟨c, hc, rfl⟩
  show GoodS C (Model.enforce_bounds C (Cell.tick C c)).sickness
  rw [enforce_bounds_sickness]
  exact goodS_tick C c (hg c hc)

lemma iterate_goodPop (C : Constants) (m : Model)
    (hg : GoodPop C m.population) (t : ℕ) :
    GoodPop C ((Model.tick C)^[t] m).population := by
  induction t with
  | zero => exact hg
  | succ t ih =>
      rw [Function.iterate_succ_apply']
      exact goodPop_model_tick C _ ih

lemma init_goodPop (C : Constants) (P I M : ℤ) (locs dirs : ℕ → Point)
    (m : Model) (hm : Model.init C P I M locs dirs = Except.ok m) :
    GoodPop C m.population := by
  rw [Model.init] at hm
  split_ifs at hm with h
  injection hm with hm
  subst hm
  intro x hx
  simp only [List.mem_append, List.mem_map, List.mem_range] at hx
  rcases hx with (h1 | h2) | h3
  · obtain ⟨k, hk, he⟩ := h1
    rw [← he, GoodS, sickness_immunize]
    right; left; rfl
  · obtain ⟨k, hk, he⟩ := h2
    rw [← he, GoodS, sickness_contract]
    right; right; exact le_refl _
  · obtain ⟨k, hk, he⟩ := h3
    rw [← he, GoodS]
    left; rfl

/-- Status classification as a function of the sickness level alone,
in the predicate order of `Cell.color`. -/
def statusOfS (C : Constants) (s : ℤ) : Status :=
  if s = C.VULNERABLE then Status.vulnerable
  else if C.INFECTED ≤ s then Status.infected
  else if s = C.IMMUNE then Status.immune
  else Status.unclassified

lemma statusOf_eq (C : Constants) (c : Cell) :
    statusOf C c = statusOfS C c.sickness := by
  simp [statusOf, statusOfS, Cell.is_vulnerable, Cell.is_infected,
    Cell.is_immune]

lemma statusOfS_vuln (C : Constants) {s : ℤ} (h : s = C.VULNERABLE) :
    statusOfS C s = Status.vulnerable := by
  simp [statusOfS, h]

lemma statusOfS_inf (C : Constants) {s : ℤ} (hV : ¬s = C.VULNERABLE)
    (hI : C.INFECTED ≤ s) : statusOfS C s = Status.infected := by
  simp [statusOfS, hV, hI]

lemma statusOfS_imm (C : Constants) {s : ℤ} (hV : ¬s = C.VULNERABLE)
    (hI : ¬C.INFECTED ≤ s) (h : s = C.IMMUNE) :
    statusOfS C s = Status.immune := by
  subst h
  simp [statusOfS, hV, hI]

/-- Pointwise effect of one `Model.tick` on a cell's sickness: the
advance stage (whose sickness effect is `Cell.tick`'s), then the scan,
which either leaves the level unchanged or takes a Vulnerable level to
the infected sentinel. -/
lemma tick_sick_at (C : Constants) (m : Model) (k : ℕ)
    (hk : k < m.population.length) :
    (((Model.tick C m).population.getD k default).sickness =
        (Cell.tick C (m.population.getD k default)).sickness ∨
      ((Cell.tick C (m.population.getD k default)).sickness = C.VULNERABLE ∧
        ((Model.tick C m).population.getD k default).sickness = C.INFECTED)) := by
  rw [tick_population]
  have hmap := getD_map (fun c => Model.enforce_bounds C (Cell.tick C c))
    m.population k hk
  rcases check_contacts_sick C
      (m.population.map (fun c => Model.enforce_bounds C (Cell.tick C c))) k
    with h | ⟨h1, h2⟩
  · left
    rw [h, hmap, enforce_bounds_sickness]
  · right
    rw [hmap, enforce_bounds_sickness] at h1
    exact ⟨h1, h2⟩

/-- Sickness trajectory of a cell that starts at the infected sentinel
and only ever advances: counts up by 1 per tick until it exceeds
`RECOVERY_PERIOD`, then snaps to the Immune sentinel and stays there. -/
lemma tick_iterate_sick (C : Constants)
    (hIR : C.INFECTED ≤ C.RECOVERY_PERIOD) (hMI : C.IMMUNE < C.INFECTED)
    (c : Cell) (hc : c.sickness = C.INFECTED) (u : ℕ) :
    ((Cell.tick C)^[u] c).sickness =
      if (u : ℤ) ≤ C.RECOVERY_PERIOD - C.INFECTED then C.INFECTED + u
      else C.IMMUNE := by
  induction u with
  | zero =>
      have h0 : ((0 : ℕ) : ℤ) ≤ C.RECOVERY_PERIOD - C.INFECTED := by
        push_cast; omega
      rw [Function.iterate_zero_apply, if_pos h0, hc]
      push_cast; omega
  | succ u ih =>
      rw [Function.iterate_succ_apply', tick_sickness, ih]
      push_cast
      split_ifs <;> omega

/-- The same trajectory at the simulation level: within each
`Model.tick` the advance stage applies `Cell.tick`'s sickness update
and the scan leaves a non-vulnerable level unchanged. -/
lemma model_iterate_sick (C : Constants) (hwf : C.WF) (m : Model) (k : ℕ)
    (hk : k < m.population.length)
    (hs : (m.population.getD k default).sickness = C.INFECTED) (u : ℕ) :
    (((Model.tick C)^[u] m).population.getD k default).sickness =
      if (u : ℤ) ≤ C.RECOVERY_PERIOD - C.INFECTED then C.INFECTED + u
      else C.IMMUNE := by
  obtain ⟨hVI, hMI, hVM, hIR, _⟩ := hwf
  induction u with
  | zero =>
      have h0 : ((0 : ℕ) : ℤ) ≤ C.RECOVERY_PERIOD - C.INFECTED := by
        push_cast; omega
      rw [Function.iterate_zero_apply, if_pos h0, hs]
      push_cast; omega
  | succ u ih =>
      have hku : k < ((Model.tick C)^[u] m).population.length := by
        rw [iterate_tick_length]; exact hk
      rw [Function.iterate_succ_apply']
      rcases tick_sick_at C ((Model.tick C)^[u] m) k hku with h | ⟨h1, h2⟩
      · rw [h, tick_sickness, ih]
        push_cast
        split_ifs <;> omega
      · exfalso
        rw [tick_sickness, ih] at h1
        revert h1
        split_ifs <;> intro h1 <;> omega

/-- One `Model.tick` moves a cell's status along the spec's state
machine: unchanged, Vulnerable to Infected, or Infected to Immune. -/
lemma tick_status_step (C : Constants) (hwf : C.WF) (m : Model)
    (hg : GoodPop C m.population) (k : ℕ) (hk : k < m.population.length) :
    statusOf C ((Model.tick C m).population.getD k default) =
      statusOf C (m.population.getD k default) ∨
    (statusOf C (m.population.getD k default) = Status.vulnerable ∧
      statusOf C ((Model.tick C m).population.getD k default) =
        Status.infected) ∨
    (statusOf C (m.population.getD k default) = Status.infected ∧
      statusOf C ((Model.tick C m).population.getD k default) =
        Status.immune) := by
  obtain ⟨hVI, hMI, hVM, hIR, _⟩ := hwf
  have hgk : GoodS C (m.population.getD k default).sickness :=
    hg _ (getD_mem _ _ hk)
  rw [statusOf_eq, statusOf_eq]
  have hmid := tick_sickness C (m.population.getD k default)
  rcases tick_sick_at C m k hk with h | ⟨h1, h2⟩
  · rw [h, hmid]
    rcases hgk with h0 | h0 | h0
    · rw [if_neg (by omega), if_neg (by omega), statusOfS_vuln C h0]
      left; rfl
    · rw [if_neg (by omega), if_neg (by omega),
        statusOfS_imm C (by omega) (by omega) h0]
      left; rfl
    · rw [if_pos h0]
      by_cases hR : C.RECOVERY_PERIOD < (m.population.getD k default).sickness + 1
      · rw [if_pos hR, statusOfS_imm C (by omega) (by omega) rfl,
          statusOfS_inf C (by omega) h0]
        right; right; exact ⟨rfl, rfl⟩
      · rw [if_neg hR,
          @statusOfS_inf C ((m.population.getD k default).sickness + 1)
            (by omega) (by omega),
          statusOfS_inf C (by omega) h0]
        left; rfl
  · rw [hmid] at h1
    rcases hgk with h0 | h0 | h0
    · rw [if_neg (by omega), if_neg (by omega)] at h1
      rw [h2, statusOfS_vuln C h0, statusOfS_inf C (by omega) (le_refl _)]
      right; left; exact ⟨rfl, rfl⟩
    · rw [if_neg (by omega), if_neg (by omega)] at h1
      exact absurd h1 (by omega)
    · rw [if_pos h0] at h1
      revert h1
      split_ifs with hR <;> intro h1 <;> exact absurd h1 (by omega)


lemma map_const_range {α : Type} (n : ℕ) (f : ℕ → α) (b : α)
    (h : ∀ k, f k = b) : (List.range n).map f = List.replicate n b := by
  have hf : f = fun _ => b := funext h
  rw [hf, List.map_const', List.length_range]

lemma dist_sq_cast (p q : Point) :
    ((Point.dist_sq p q : ℚ) : ℝ) =
      ((p.x : ℝ) - (q.x : ℝ)) ^ 2 + ((p.y : ℝ) - (q.y : ℝ)) ^ 2 := by
  rw [Point.dist_sq]
  push_cast
  ring

/-- C1.  Construction: for all populationSize `P`, numInfected `I`,
numImmune `M`, `Model.init` fails exactly when
`I ≤ 0 ∨ I ≥ P ∨ M < 0 ∨ M ≥ P ∨ I + M > P`; on every valid
combination it succeeds and the particle sequence carries exactly `M`
Immune sickness levels first, then `I` Infected levels, then `P - I - M`
Vulnerable levels, in that order. -/
theorem init_spec (C : Constants) (P I M : ℤ) (locs dirs : ℕ → Point) :
    (Model.init C P I M locs dirs = Except.error () ↔
      I ≤ 0 ∨ P ≤ I ∨ M < 0 ∨ P ≤ M ∨ P < I + M) ∧
    (¬(I ≤ 0 ∨ P ≤ I ∨ M < 0 ∨ P ≤ M ∨ P < I + M) →
      ∃ m : Model, Model.init C P I M locs dirs = Except.ok m ∧
        m.population.length = P.toNat ∧
        m.population.map (fun c => c.sickness) =
          List.replicate M.toNat C.IMMUNE ++
            List.replicate I.toNat C.INFECTED ++
            List.replicate (P - I - M).toNat C.VULNERABLE) := by
  constructor
  · rw [Model.init]
    split_ifs with h
    · exact iff_of_true rfl (by omega)
    · exact iff_of_false (by simp) (by omega)
  · intro hv
    rw [Model.init, if_neg (by omega)]
    refine ⟨_, rfl, ?_, ?_⟩
    · simp only [List.length_append, List.length_map, List.length_range]
      omega
    · simp only [List.map_append, List.map_map]
      have e1 : (List.range M.toNat).map
          ((fun c => c.sickness) ∘
            fun k => Cell.immunize C (Cell.init C (locs k) (dirs k))) =
          List.replicate M.toNat C.IMMUNE :=
        map_const_range _ _ _ (fun k => rfl)
      have e2 : (List.range I.toNat).map
          ((fun c => c.sickness) ∘
            fun k => Cell.contract_disease C
              (Cell.init C (locs (M.toNat + k)) (dirs (M.toNat + k)))) =
          List.replicate I.toNat C.INFECTED :=
        map_const_range _ _ _ (fun k => rfl)
      have e3 : (List.range (P - I - M).toNat).map
          ((fun c => c.sickness) ∘
            fun k => Cell.init C (locs (M.toNat + I.toNat + k))
              (dirs (M.toNat + I.toNat + k))) =
          List.replicate (P - I - M).toNat C.VULNERABLE :=
        map_const_range _ _ _ (fun k => rfl)
      rw [e1, e2, e3]

/-- C2.  The contact rule: contactWith infects self when other is
Infected and self Vulnerable, else infects other when self is Infected
and other Vulnerable, else changes nothing; at most one participant is
mutated, and an Immune or already-Infected participant keeps its
sickness level. -/
theorem contact_with_spec (C : Constants) (hwf : C.WF) (c1 c2 : Cell) :
    (c2.is_infected C = true ∧ c1.is_vulnerable C = true →
      Cell.contact_with C c1 c2 = (c1.contract_disease C, c2)) ∧
    (c1.is_infected C = true ∧ c2.is_vulnerable C = true →
      Cell.contact_with C c1 c2 = (c1, c2.contract_disease C)) ∧
    (¬(c2.is_infected C = true ∧ c1.is_vulnerable C = true) →
      ¬(c1.is_infected C = true ∧ c2.is_vulnerable C = true) →
      Cell.contact_with C c1 c2 = (c1, c2)) ∧
    ((Cell.contact_with C c1 c2).1 = c1 ∨
      (Cell.contact_with C c1 c2).2 = c2) ∧
    (c1.is_immune C = true ∨ c1.is_infected C = true →
      (Cell.contact_with C c1 c2).1.sickness = c1.sickness) ∧
    (c2.is_immune C = true ∨ c2.is_infected C = true →
      (Cell.contact_with C c1 c2).2.sickness = c2.sickness) := by
  obtain ⟨hVI, hMI, hVM, _⟩ := hwf
  simp only [Cell.contact_with, Cell.is_infected, Cell.is_vulnerable,
    Cell.is_immune, Bool.and_eq_true, decide_eq_true_eq]
  split_ifs with h1 h2
  · obtain ⟨h1a, h1b⟩ := h1
    refine ⟨fun _ => rfl, ?_, ?_, Or.inr rfl, ?_, fun _ => rfl⟩
    · rintro ⟨g1, _⟩; omega
    · intro g; exact absurd ⟨h1a, h1b⟩ g
    · rintro (g | g) <;> omega
  · obtain ⟨h2a, h2b⟩ := h2
    refine ⟨?_, fun _ => rfl, ?_, Or.inl rfl, fun _ => rfl, ?_⟩
    · rintro ⟨g1, g2⟩; exact absurd ⟨g1, g2⟩ h1
    · intro _ g; exact absurd ⟨h2a, h2b⟩ g
    · rintro (g | g) <;> omega
  · refine ⟨?_, ?_, fun _ _ => rfl, Or.inl rfl, fun _ => rfl, fun _ => rfl⟩
    · rintro ⟨g1, g2⟩; exact absurd ⟨g1, g2⟩ h1
    · rintro ⟨g1, g2⟩; exact absurd ⟨g1, g2⟩ h2

/-- C5.  Contact scan: `scan_pairs` lists exactly the unordered index
pairs `(i, j)` with `i < j < n`; `check_contacts` is the fold of the
per-pair step over that list; the step applies `contact_with` precisely
when the distance comparison succeeds and is the identity otherwise;
and the distance comparison agrees with the source's
`sqrt(dx² + dy²) < CELL_RADIUS`. -/
theorem check_contacts_spec (C : Constants) :
    (∀ n i j : ℕ, (i, j) ∈ Model.scan_pairs n ↔ i < j ∧ j < n) ∧
    (∀ pop : List Cell,
      Model.check_contacts C pop =
        (Model.scan_pairs pop.length).foldl
          (fun acc pr => Model.contact_step C acc pr.1 pr.2) pop) ∧
    (∀ (pop : List Cell) (i j : ℕ),
      Point.distance_lt (pop.getD i default).location
          (pop.getD j default).location C.CELL_RADIUS = true →
      Model.contact_step C pop i j =
        (pop.set i
            (Cell.contact_with C (pop.getD i default) (pop.getD j default)).1).set
          j (Cell.contact_with C (pop.getD i default) (pop.getD j default)).2) ∧
    (∀ (pop : List Cell) (i j : ℕ),
      Point.distance_lt (pop.getD i default).location
          (pop.getD j default).location C.CELL_RADIUS = false →
      Model.contact_step C pop i j = pop) ∧
    (∀ (p q : Point) (r : ℚ),
      Point.distance_lt p q r = true ↔
        Real.sqrt (((p.x : ℝ) - (q.x : ℝ)) ^ 2 + ((p.y : ℝ) - (q.y : ℝ)) ^ 2) <
          (r : ℝ)) := by
  refine ⟨?_, ?_, ?_, ?_, ?_⟩
  · intro n i j
    simp only [Model.scan_pairs, List.mem_flatMap, List.mem_map,
      List.mem_range, List.mem_range'_1]
    constructor
    · rintro ⟨a, ha, b, hb, he⟩
      cases he
      omega
    · rintro ⟨hij, hjn⟩
      exact ⟨i, by omega, j, ⟨by omega, by omega⟩, rfl⟩
  · intro pop
    exact check_contacts_eq_scan_fold C pop
  · intro pop i j h
    simp only [Model.contact_step]
    rw [if_pos h]
  · intro pop i j h
    simp only [Model.contact_step]
    rw [if_neg (by rw [h]; exact Bool.false_ne_true)]
  · intro p q r
    rw [Point.distance_lt, decide_eq_true_eq]
    constructor
    · rintro ⟨hr, hd⟩
      have hrR : (0 : ℝ) < (r : ℝ) := by exact_mod_cast hr
      rw [← dist_sq_cast, Real.sqrt_lt' hrR, pow_two]
      exact_mod_cast hd
    · intro h
      have hrR : (0 : ℝ) < (r : ℝ) :=
        lt_of_le_of_lt (Real.sqrt_nonneg _) h
      refine ⟨by exact_mod_cast hrR, ?_⟩
      rw [← dist_sq_cast, Real.sqrt_lt' hrR, pow_two] at h
      exact_mod_cast h

/-- C6.  Tick order of operations: `tick` increments the time counter
by exactly 1, keeps the population size, equals the contact scan run on
the advanced-and-reflected population, and every particle's post-tick
location and direction are those produced by advance-then-reflect (the
scan touches only sickness), so the scan compares post-move positions. -/
theorem tick_order_spec (C : Constants) (m : Model) :
    (Model.tick C m).time = m.time + 1 ∧
    (Model.tick C m).population.length = m.population.length ∧
    (Model.tick C m).population =
      Model.check_contacts C
        (m.population.map (fun c => Model.enforce_bounds C (Cell.tick C c))) ∧
    ∀ k : ℕ, k < m.population.length →
      ((Model.tick C m).population.getD k default).location =
        (Model.enforce_bounds C
          (Cell.tick C (m.population.getD k default))).location ∧
      ((Model.tick C m).population.getD k default).direction =
        (Model.enforce_bounds C
          (Cell.tick C (m.population.getD k default))).direction := by
  refine ⟨rfl, tick_length C m, rfl, ?_⟩
  intro k hk
  rw [tick_population]
  obtain ⟨e1, e2⟩ := check_contacts_locdir C
    (m.population.map fun c => Model.enforce_bounds C (Cell.tick C c)) k
  rw [e1, e2, getD_map _ _ _ hk]
  exact ⟨rfl, rfl⟩

/-- C10.  In-scan infection cascade: with three mutually-in-range
stationary cells and exactly one initially infected, one `tick` newly
infects more than one cell; and because status changes take effect
immediately during the scan, in the chain configuration cell 2 — out of
contact range of the only initially infected cell — is still infected
within the same `tick`, through cell 0 which was infected earlier in
the same scan. -/
theorem infection_cascade_in_scan :
    (cascadeRing.population.countP (fun c => c.is_infected K10) = 1 ∧
     Point.distance_lt (cascadeRing.population.getD 0 default).location
       (cascadeRing.population.getD 1 default).location K10.CELL_RADIUS = true ∧
     Point.distance_lt (cascadeRing.population.getD 0 default).location
       (cascadeRing.population.getD 2 default).location K10.CELL_RADIUS = true ∧
     Point.distance_lt (cascadeRing.population.getD 1 default).location
       (cascadeRing.population.getD 2 default).location K10.CELL_RADIUS = true ∧
     (Model.tick K10 cascadeRing).population.countP
       (fun c => c.is_infected K10) = 3) ∧
    (cascadeChain.population.countP (fun c => c.is_infected K10) = 1 ∧
     Point.distance_lt (cascadeChain.population.getD 1 default).location
       (cascadeChain.population.getD 2 default).location K10.CELL_RADIUS = false ∧
     (Model.tick K10 cascadeChain).population.map (fun c => c.sickness) =
       [1, 2, 1]) := by
  have hr3 : List.range 3 = [0, 1, 2] := rfl
  have ha : List.range' 1 2 = [1, 2] := rfl
  have hb : List.range' 2 1 = [2] := rfl
  have hc : List.range' 3 0 = ([] : List ℕ) := rfl
  refine ⟨⟨?_, ?_, ?_, ?_, ?_⟩, ?_, ?_, ?_⟩ <;>
    norm_num [hr3, ha, hb, hc, cascadeRing, cascadeChain, K10, Model.tick,
      Model.check_contacts, Model.contact_step, Model.enforce_bounds, Cell.tick,
      Cell.contact_with, Cell.contract_disease, Cell.immunize, Cell.is_infected,
      Cell.is_vulnerable, Point.add, Point.distance_lt, Point.dist_sq,
      List.countP_cons, List.countP_nil]

lemma enforce_x_max (C : Constants) (hx : C.MIN_X ≤ C.MAX_X) (c : Cell)
    (h : C.MAX_X < c.location.x) :
    (Model.enforce_bounds C c).location.x = C.MAX_X ∧
    (Model.enforce_bounds C c).direction.x = -c.direction.x := by
  obtain ⟨⟨px, py⟩, ⟨vx, vy⟩, s⟩ := c
  simp only [Model.enforce_bounds] at h ⊢
  split_ifs <;> first | exact ⟨rfl, rfl⟩ | (exfalso; linarith)

lemma enforce_x_min (C : Constants) (hx : C.MIN_X ≤ C.MAX_X) (c : Cell)
    (h : c.location.x < C.MIN_X) :
    (Model.enforce_bounds C c).location.x = C.MIN_X ∧
    (Model.enforce_bounds C c).direction.x = -c.direction.x := by
  obtain ⟨⟨px, py⟩, ⟨vx, vy⟩, s⟩ := c
  simp only [Model.enforce_bounds] at h ⊢
  split_ifs <;> first | exact ⟨rfl, rfl⟩ | (exfalso; linarith)

lemma enforce_y_max (C : Constants) (hy : C.MIN_Y ≤ C.MAX_Y) (c : Cell)
    (h : C.MAX_Y < c.location.y) :
    (Model.enforce_bounds C c).location.y = C.MAX_Y ∧
    (Model.enforce_bounds C c).direction.y = -c.direction.y := by
  obtain ⟨⟨px, py⟩, ⟨vx, vy⟩, s⟩ := c
  simp only [Model.enforce_bounds] at h ⊢
  split_ifs <;> first | exact ⟨rfl, rfl⟩ | (exfalso; linarith)

lemma enforce_y_min (C : Constants) (hy : C.MIN_Y ≤ C.MAX_Y) (c : Cell)
    (h : c.location.y < C.MIN_Y) :
    (Model.enforce_bounds C c).location.y = C.MIN_Y ∧
    (Model.enforce_bounds C c).direction.y = -c.direction.y := by
  obtain ⟨⟨px, py⟩, ⟨vx, vy⟩, s⟩ := c
  simp only [Model.enforce_bounds] at h ⊢
  split_ifs <;> first | exact ⟨rfl, rfl⟩ | (exfalso; linarith)

lemma enforce_corner (C : Constants) (hx : C.MIN_X ≤ C.MAX_X)
    (hy : C.MIN_Y ≤ C.MAX_Y) (c : Cell)
    (h : C.MAX_X < c.location.x ∧ C.MAX_Y < c.location.y) :
    (Model.enforce_bounds C c).location.x = C.MAX_X ∧
    (Model.enforce_bounds C c).location.y = C.MAX_Y ∧
    (Model.enforce_bounds C c).direction.x = -c.direction.x ∧
    (Model.enforce_bounds C c).direction.y = -c.direction.y := by
  obtain ⟨h1, h2⟩ := h
  obtain ⟨⟨px, py⟩, ⟨vx, vy⟩, s⟩ := c
  simp only [Model.enforce_bounds] at h1 h2 ⊢
  split_ifs <;> first | exact ⟨rfl, rfl, rfl, rfl⟩ | (exfalso; linarith)

/-- C4.  Boundary reflection: for each of the four axis bounds, a
coordinate beyond the bound is clamped to the bound with the matching
velocity component negated; the checks act independently, so a corner
violation clamps both coordinates and flips both components; and a
particle at `MAX_X + ε` with positive x-velocity has, after
advance-and-reflect, `location.x = MAX_X` and negated x-velocity. -/
theorem enforce_bounds_spec (C : Constants) (hwf : C.WF) (c : Cell) :
    (C.MAX_X < c.location.x →
      (Model.enforce_bounds C c).location.x = C.MAX_X ∧
      (Model.enforce_bounds C c).direction.x = -c.direction.x) ∧
    (c.location.x < C.MIN_X →
      (Model.enforce_bounds C c).location.x = C.MIN_X ∧
      (Model.enforce_bounds C c).direction.x = -c.direction.x) ∧
    (C.MAX_Y < c.location.y →
      (Model.enforce_bounds C c).location.y = C.MAX_Y ∧
      (Model.enforce_bounds C c).direction.y = -c.direction.y) ∧
    (c.location.y < C.MIN_Y →
      (Model.enforce_bounds C c).location.y = C.MIN_Y ∧
      (Model.enforce_bounds C c).direction.y = -c.direction.y) ∧
    (C.MAX_X < c.location.x ∧ C.MAX_Y < c.location.y →
      (Model.enforce_bounds C c).location.x = C.MAX_X ∧
      (Model.enforce_bounds C c).location.y = C.MAX_Y ∧
      (Model.enforce_bounds C c).direction.x = -c.direction.x ∧
      (Model.enforce_bounds C c).direction.y = -c.direction.y) ∧
    (∀ eps : ℚ, 0 < eps → c.location.x = C.MAX_X + eps →
      0 < c.direction.x →
      (Model.enforce_bounds C (Cell.tick C c)).location.x = C.MAX_X ∧
      (Model.enforce_bounds C (Cell.tick C c)).direction.x =
        -c.direction.x) := by
  obtain ⟨_, _, _, _, hminx, hminy, hbw, hbwx, hbwy⟩ := hwf
  have hx : C.MIN_X ≤ C.MAX_X := by rw [hminx]; linarith
  have hy : C.MIN_Y ≤ C.MAX_Y := by rw [hminy]; linarith
  refine ⟨enforce_x_max C hx c, enforce_x_min C hx c, enforce_y_max C hy c,
    enforce_y_min C hy c, enforce_corner C hx hy c, ?_⟩
  intro eps heps hlx hvx
  have h1 : C.MAX_X < (Cell.tick C c).location.x := by
    have he : (Cell.tick C c).location.x = c.location.x + c.direction.x := by
      rw [tick_location]; rfl
    rw [he, hlx]; linarith
  obtain ⟨e1, e2⟩ := enforce_x_max C hx (Cell.tick C c) h1
  rw [tick_direction] at e2
  exact ⟨e1, e2⟩

/-- C3.  Recovery timing: with the infected sentinel as the zero point
of the duration counter (the spec's `T + recoveryPeriod + 1` property
fixes the sentinel at 0), a particle whose sickness level is the
infected sentinel after tick `T` is Immune exactly from tick
`T + RECOVERY_PERIOD + 1` on, its counter incremented by 1 on each
advance while infected and the transition firing when the counter
exceeds `RECOVERY_PERIOD`. -/
theorem recovery_timing_spec (C : Constants) (hwf : C.WF)
    (h0 : C.INFECTED = 0) (m : Model) (k : ℕ)
    (hk : k < m.population.length)
    (hs : (m.population.getD k default).sickness = C.INFECTED) (u : ℕ) :
    ((((Model.tick C)^[u] m).population.getD k default).is_immune C = true ↔
      C.RECOVERY_PERIOD + 1 ≤ (u : ℤ)) ∧
    ((u : ℤ) ≤ C.RECOVERY_PERIOD →
      (((Model.tick C)^[u] m).population.getD k default).sickness =
        C.INFECTED + u) := by
  have hfor := model_iterate_sick C hwf m k hk hs u
  obtain ⟨hVI, hMI, hVM, hIR, _⟩ := hwf
  constructor
  · rw [Cell.is_immune, decide_eq_true_eq, hfor]
    split_ifs with hcond
    · exact iff_of_false (by omega) (by omega)
    · exact iff_of_true rfl (by omega)
  · intro hu
    rw [hfor, if_pos (by omega)]

/-- Single-cell model used by the recovery-timing witness: one cell at
the infected sentinel of `K0`. -/
def recModel : Model :=
  Model.mk [Cell.mk (Point.mk 0 0) (Point.mk 0 0) 0] 0

/-- C7.  Status monotonicity: in a validly constructed simulation, each
tick moves a particle's status only along `Vulnerable → Infected →
Immune`; Immune is absorbing, and an Infected particle is thereafter
Infected or Immune, never Vulnerable. -/
theorem status_monotonicity_spec (C : Constants) (hwf : C.WF)
    (P I M : ℤ) (locs dirs : ℕ → Point) (m : Model)
    (hm : Model.init C P I M locs dirs = Except.ok m) (k : ℕ)
    (hk : k < m.population.length) :
    (∀ t : ℕ,
      statusOf C (((Model.tick C)^[t + 1] m).population.getD k default) =
        statusOf C (((Model.tick C)^[t] m).population.getD k default) ∨
      (statusOf C (((Model.tick C)^[t] m).population.getD k default) =
          Status.vulnerable ∧
        statusOf C (((Model.tick C)^[t + 1] m).population.getD k default) =
          Status.infected) ∨
      (statusOf C (((Model.tick C)^[t] m).population.getD k default) =
          Status.infected ∧
        statusOf C (((Model.tick C)^[t + 1] m).population.getD k default) =
          Status.immune)) ∧
    (∀ t u : ℕ, t ≤ u →
      statusOf C (((Model.tick C)^[t] m).population.getD k default) =
        Status.immune →
      statusOf C (((Model.tick C)^[u] m).population.getD k default) =
        Status.immune) ∧
    (∀ t u : ℕ, t ≤ u →
      statusOf C (((Model.tick C)^[t] m).population.getD k default) =
        Status.infected →
      statusOf C (((Model.tick C)^[u] m).population.getD k default) =
          Status.infected ∨
        statusOf C (((Model.tick C)^[u] m).population.getD k default) =
          Status.immune) := by
  have hg0 : GoodPop C m.population := init_goodPop C P I M locs dirs m hm
  have hstep : ∀ t : ℕ,
      statusOf C (((Model.tick C)^[t + 1] m).population.getD k default) =
        statusOf C (((Model.tick C)^[t] m).population.getD k default) ∨
      (statusOf C (((Model.tick C)^[t] m).population.getD k default) =
          Status.vulnerable ∧
        statusOf C (((Model.tick C)^[t + 1] m).population.getD k default) =
          Status.infected) ∨
      (statusOf C (((Model.tick C)^[t] m).population.getD k default) =
          Status.infected ∧
        statusOf C (((Model.tick C)^[t + 1] m).population.getD k default) =
          Status.immune) := by
    intro t
    have h := tick_status_step C hwf ((Model.tick C)^[t] m)
      (iterate_goodPop C m hg0 t) k
      (by rw [iterate_tick_length]; exact hk)
    rw [Function.iterate_succ_apply']
    exact h
  refine ⟨hstep, ?_, ?_⟩
  · intro t u htu himm
    induction u, htu using Nat.le_induction with
    | base => exact himm
    | succ u htu ih =>
        rcases hstep u with h | ⟨h1, h2⟩ | ⟨h1, h2⟩
        · rw [h]; exact ih
        · exact absurd (ih.symm.trans h1) (by decide)
        · exact absurd (ih.symm.trans h1) (by decide)
  · intro t u htu hinf
    induction u, htu using Nat.le_induction with
    | base => left; exact hinf
    | succ u htu ih =>
        rcases ih with ih | ih
        · rcases hstep u with h | ⟨h1, h2⟩ | ⟨h1, h2⟩
          · left; rw [h]; exact ih
          · exact absurd (ih.symm.trans h1) (by decide)
          · right; exact h2
        · rcases hstep u with h | ⟨h1, h2⟩ | ⟨h1, h2⟩
          · right; rw [h]; exact ih
          · exact absurd (ih.symm.trans h1) (by decide)
          · exact absurd (ih.symm.trans h1) (by decide)

/-- C8.  Sickness-level invariant: the level is always the Vulnerable
sentinel, the Immune sentinel, or at/above the infected threshold;
every operation (advance, infect, immunize, contactWith, tick)
preserves this, and it holds in every state reachable from a valid
construction. -/
theorem sickness_invariant_spec (C : Constants) :
    (∀ c : Cell, GoodS C c.sickness → GoodS C (Cell.tick C c).sickness) ∧
    (∀ c : Cell, GoodS C (Cell.contract_disease C c).sickness) ∧
    (∀ c : Cell, GoodS C (Cell.immunize C c).sickness) ∧
    (∀ c : Cell, GoodS C c.sickness →
      GoodS C (Model.enforce_bounds C c).sickness) ∧
    (∀ c1 c2 : Cell, GoodS C c1.sickness → GoodS C c2.sickness →
      GoodS C (Cell.contact_with C c1 c2).1.sickness ∧
      GoodS C (Cell.contact_with C c1 c2).2.sickness) ∧
    (∀ m : Model, GoodPop C m.population →
      GoodPop C (Model.tick C m).population) ∧
    (∀ (P I M : ℤ) (locs dirs : ℕ → Point) (m : Model),
      Model.init C P I M locs dirs = Except.ok m →
      ∀ t : ℕ, GoodPop C ((Model.tick C)^[t] m).population) := by
  refine ⟨goodS_tick C, ?_, ?_, ?_, ?_, goodPop_model_tick C, ?_⟩
  · intro c
    rw [GoodS, sickness_contract]
    right; right; exact le_refl _
  · intro c
    rw [GoodS, sickness_immunize]
    right; left; rfl
  · intro c hc
    rwa [GoodS, enforce_bounds_sickness]
  · intro c1 c2 h1 h2
    constructor
    · rcases contact_with_fst_sick C c1 c2 with he | ⟨_, he⟩
      · rwa [GoodS, he]
      · rw [GoodS, he]; right; right; exact le_refl _
    · rcases contact_with_snd_sick C c1 c2 with he | ⟨_, he⟩
      · rwa [GoodS, he]
      · rw [GoodS, he]; right; right; exact le_refl _
  · intro P I M locs dirs m hm t
    exact iterate_goodPop C m (init_goodPop C P I M locs dirs m hm) t

/-- C9.  Randomized initialization: for draws in `[0,1)`,
`random_location` lands inside the configured bounds, and
`random_direction` is `(speed·cos θ, speed·sin θ)` for the angle
`θ = 2π·r ∈ [0, 2π)` determined by the single draw. -/
theorem random_init_spec (C : Constants) (hwf : C.WF) (r1 r2 : ℚ)
    (h1 : 0 ≤ r1) (h1' : r1 < 1) (h2 : 0 ≤ r2) (h2' : r2 < 1)
    (speed r : ℝ) (hr : 0 ≤ r) (hr' : r < 1) :
    (C.MIN_X ≤ (Model.random_location C r1 r2).x ∧
      (Model.random_location C r1 r2).x ≤ C.MAX_X ∧
      C.MIN_Y ≤ (Model.random_location C r1 r2).y ∧
      (Model.random_location C r1 r2).y ≤ C.MAX_Y) ∧
    (∃ θ : ℝ, 0 ≤ θ ∧ θ < 2 * Real.pi ∧
      Model.random_direction speed r =
        (speed * Real.cos θ, speed * Real.sin θ)) := by
  obtain ⟨_, _, _, _, hminx, hminy, hbw, hbwx, hbwy⟩ := hwf
  constructor
  · have e1 : r1 * C.BOUNDS_WIDTH ≤ C.BOUNDS_WIDTH := by
      nlinarith
    have e2 : r2 * C.BOUNDS_WIDTH ≤ C.BOUNDS_WIDTH := by
      nlinarith
    have e3 : 0 ≤ r1 * C.BOUNDS_WIDTH := mul_nonneg h1 hbw
    have e4 : 0 ≤ r2 * C.BOUNDS_WIDTH := mul_nonneg h2 hbw
    simp only [Model.random_location]
    refine ⟨?_, ?_, ?_, ?_⟩
    · rw [hminx]; linarith
    · linarith
    · rw [hminy]; linarith
    · linarith
  · refine ⟨2 * Real.pi * r, ?_, ?_, ?_⟩
    · have := Real.pi_pos
      nlinarith
    · have hpi := Real.pi_pos
      nlinarith
    · rw [Model.random_direction]
      rw [mul_comm (Real.cos (2 * Real.pi * r)) speed,
        mul_comm (Real.sin (2 * Real.pi * r)) speed]

/-- A vulnerable cell at the origin, used by witnesses. -/
def wVuln : Cell := Cell.mk (Point.mk 0 0) (Point.mk 0 0) 0

/-- An infected cell (sickness at `Kd`'s infected sentinel), used by
witnesses. -/
def wInf : Cell := Cell.mk (Point.mk 3 0) (Point.mk 0 0) 1

/-- A cell beyond the right bound moving right, used by the boundary
witness. -/
def wOut : Cell := Cell.mk (Point.mk 250 0) (Point.mk 5 0) 0

/-- Constant stream of origin points, standing in for the random draws
in witnesses. -/
def zeroStream : ℕ → Point := fun _ => Point.mk 0 0

/-- The model `Model.init Kd 3 1 1 zeroStream zeroStream` produces. -/
def wModel7 : Model :=
  Model.mk
    [Cell.mk (Point.mk 0 0) (Point.mk 0 0) (-1),
     Cell.mk (Point.mk 0 0) (Point.mk 0 0) 1,
     Cell.mk (Point.mk 0 0) (Point.mk 0 0) 0]
    0

theorem contact_with_spec_witness :
    Kd.WF ∧
    ((wInf.is_infected Kd = true ∧ wVuln.is_vulnerable Kd = true →
      Cell.contact_with Kd wVuln wInf = (wVuln.contract_disease Kd, wInf)) ∧
    (wVuln.is_infected Kd = true ∧ wInf.is_vulnerable Kd = true →
      Cell.contact_with Kd wVuln wInf = (wVuln, wInf.contract_disease Kd)) ∧
    (¬(wInf.is_infected Kd = true ∧ wVuln.is_vulnerable Kd = true) →
      ¬(wVuln.is_infected Kd = true ∧ wInf.is_vulnerable Kd = true) →
      Cell.contact_with Kd wVuln wInf = (wVuln, wInf)) ∧
    ((Cell.contact_with Kd wVuln wInf).1 = wVuln ∨
      (Cell.contact_with Kd wVuln wInf).2 = wInf) ∧
    (wVuln.is_immune Kd = true ∨ wVuln.is_infected Kd = true →
      (Cell.contact_with Kd wVuln wInf).1.sickness = wVuln.sickness) ∧
    (wInf.is_immune Kd = true ∨ wInf.is_infected Kd = true →
      (Cell.contact_with Kd wVuln wInf).2.sickness = wInf.sickness)) :=
  ⟨by norm_num [Constants.WF, Kd],
    contact_with_spec Kd (by norm_num [Constants.WF, Kd]) wVuln wInf⟩

theorem recovery_timing_spec_witness :
    K0.WF ∧ K0.INFECTED = 0 ∧ 0 < recModel.population.length ∧
    (recModel.population.getD 0 default).sickness = K0.INFECTED ∧
    (((((Model.tick K0)^[4] recModel).population.getD 0 default).is_immune K0 =
        true ↔ K0.RECOVERY_PERIOD + 1 ≤ ((4 : ℕ) : ℤ)) ∧
    (((4 : ℕ) : ℤ) ≤ K0.RECOVERY_PERIOD →
      (((Model.tick K0)^[4] recModel).population.getD 0 default).sickness =
        K0.INFECTED + (4 : ℕ))) :=
  ⟨by norm_num [Constants.WF, K0], rfl, by decide, rfl,
    recovery_timing_spec K0 (by norm_num [Constants.WF, K0]) rfl recModel 0
      (by decide) rfl 4⟩

theorem enforce_bounds_spec_witness :
    Kd.WF ∧
    ((Kd.MAX_X < wOut.location.x →
      (Model.enforce_bounds Kd wOut).location.x = Kd.MAX_X ∧
      (Model.enforce_bounds Kd wOut).direction.x = -wOut.direction.x) ∧
    (wOut.location.x < Kd.MIN_X →
      (Model.enforce_bounds Kd wOut).location.x = Kd.MIN_X ∧
      (Model.enforce_bounds Kd wOut).direction.x = -wOut.direction.x) ∧
    (Kd.MAX_Y < wOut.location.y →
      (Model.enforce_bounds Kd wOut).location.y = Kd.MAX_Y ∧
      (Model.enforce_bounds Kd wOut).direction.y = -wOut.direction.y) ∧
    (wOut.location.y < Kd.MIN_Y →
      (Model.enforce_bounds Kd wOut).location.y = Kd.MIN_Y ∧
      (Model.enforce_bounds Kd wOut).direction.y = -wOut.direction.y) ∧
    (Kd.MAX_X < wOut.location.x ∧ Kd.MAX_Y < wOut.location.y →
      (Model.enforce_bounds Kd wOut).location.x = Kd.MAX_X ∧
      (Model.enforce_bounds Kd wOut).location.y = Kd.MAX_Y ∧
      (Model.enforce_bounds Kd wOut).direction.x = -wOut.direction.x ∧
      (Model.enforce_bounds Kd wOut).direction.y = -wOut.direction.y) ∧
    (∀ eps : ℚ, 0 < eps → wOut.location.x = Kd.MAX_X + eps →
      0 < wOut.direction.x →
      (Model.enforce_bounds Kd (Cell.tick Kd wOut)).location.x = Kd.MAX_X ∧
      (Model.enforce_bounds Kd (Cell.tick Kd wOut)).direction.x =
        -wOut.direction.x)) :=
  ⟨by norm_num [Constants.WF, Kd],
    enforce_bounds_spec Kd (by norm_num [Constants.WF, Kd]) wOut⟩

theorem status_monotonicity_spec_witness :
    Kd.WF ∧
    Model.init Kd 3 1 1 zeroStream zeroStream = Except.ok wModel7 ∧
    0 < wModel7.population.length ∧
    ((∀ t : ℕ,
      statusOf Kd (((Model.tick Kd)^[t + 1] wModel7).population.getD 0 default) =
        statusOf Kd (((Model.tick Kd)^[t] wModel7).population.getD 0 default) ∨
      (statusOf Kd (((Model.tick Kd)^[t] wModel7).population.getD 0 default) =
          Status.vulnerable ∧
        statusOf Kd (((Model.tick Kd)^[t + 1] wModel7).population.getD 0 default) =
          Status.infected) ∨
      (statusOf Kd (((Model.tick Kd)^[t] wModel7).population.getD 0 default) =
          Status.infected ∧
        statusOf Kd (((Model.tick Kd)^[t + 1] wModel7).population.getD 0 default) =
          Status.immune)) ∧
    (∀ t u : ℕ, t ≤ u →
      statusOf Kd (((Model.tick Kd)^[t] wModel7).population.getD 0 default) =
        Status.immune →
      statusOf Kd (((Model.tick Kd)^[u] wModel7).population.getD 0 default) =
        Status.immune) ∧
    (∀ t u : ℕ, t ≤ u →
      statusOf Kd (((Model.tick Kd)^[t] wModel7).population.getD 0 default) =
        Status.infected →
      statusOf Kd (((Model.tick Kd)^[u] wModel7).population.getD 0 default) =
          Status.infected ∨
        statusOf Kd (((Model.tick Kd)^[u] wModel7).population.getD 0 default) =
          Status.immune)) :=
  ⟨by norm_num [Constants.WF, Kd], by rfl, by decide,
    status_monotonicity_spec Kd (by norm_num [Constants.WF, Kd]) 3 1 1
      zeroStream zeroStream wModel7 (by rfl) 0 (by decide)⟩

theorem random_init_spec_witness :
    Kd.WF ∧ (0 : ℚ) ≤ 0 ∧ (0 : ℚ) < 1 ∧ (0 : ℝ) ≤ 0 ∧ (0 : ℝ) < 1 ∧
    ((Kd.MIN_X ≤ (Model.random_location Kd 0 0).x ∧
      (Model.random_location Kd 0 0).x ≤ Kd.MAX_X ∧
      Kd.MIN_Y ≤ (Model.random_location Kd 0 0).y ∧
      (Model.random_location Kd 0 0).y ≤ Kd.MAX_Y) ∧
    (∃ θ : ℝ, 0 ≤ θ ∧ θ < 2 * Real.pi ∧
      Model.random_direction 1 0 =
        (1 * Real.cos θ, 1 * Real.sin θ))) :=
  ⟨by norm_num [Constants.WF, Kd], le_refl 0, by norm_num, le_refl 0,
    by norm_num,
    random_init_spec Kd (by norm_num [Constants.WF, Kd]) 0 0 (le_refl 0)
      (by norm_num) (le_refl 0) (by norm_num) 1 0 (le_refl 0) (by norm_num)⟩
